import Mathlib

/-
Verification of the resilient event-stream client in
`src/server/heliusStream.js` (`createWalletMintStream`).

The JavaScript module is shallowly embedded: the module-level mutable
variables (`ws`, `timers`, `backoffMs`, `pair`, `inflightDetails`, `seen`,
`shouldRun`, plus the persisted per-pair state files) become an explicit
`SState` record; each handler / operation becomes a pure function from a
state (and the results of its external calls, passed in as oracles) to a
new state together with the list of observable actions it performs
(RPC calls, websocket operations, `onEvent` emissions, `onLog` lines,
cursor writes).  Asynchronous detail fetches are split into a start step
(the synchronous part of the `message` handler) and a completion step
(the continuation after `await txHasWalletMintPair`), so interleavings of
the JavaScript event loop are expressible.
-/

namespace HeliusStream

/-- Persisted per-pair cursor record (`{ lastSlot, lastSig }` in
`loadState`/`saveState`). -/
structure PState where
  lastSlot : Nat
  lastSig : Option String
deriving DecidableEq, Repr

/-- The four timer slots of the module (`timers = { ping, liveness, idle,
probe }`); `true` means the timer is armed. -/
structure Timers where
  ping : Bool
  liveness : Bool
  idle : Bool
  probe : Bool
deriving DecidableEq, Repr

/-- `clearAllTimers()`: every slot cleared. -/
def clearedTimers : Timers := ⟨false, false, false, false⟩

/-- The mutable module state of `createWalletMintStream`.  `ws = true`
means a websocket object exists; `store` models the `.helius_state`
directory as an association list from state-file key to persisted
record. -/
structure SState where
  ws : Bool
  timers : Timers
  backoffMs : Nat
  pairWallet : Option String
  pairMint : Option String
  inflightDetails : Int
  seen : List String
  shouldRun : Bool
  store : List (String × PState)
deriving DecidableEq, Repr

/-- The event object passed to `cfg.onEvent` (the `ts := Date.now()`
field is ambient wall-clock time and is omitted). -/
structure Event where
  source : String
  wallet : Option String
  mint : Option String
  slot : Nat
  signature : String
  err : Option String
  logLine : String
deriving DecidableEq, Repr

/-- Observable external actions of the module, in program order. -/
inductive Action where
  | logMsg (level msg : String)
  | rpcProbe
  | rpcSignatures (wallet : String) (limit : Nat) (minContextSlot : Nat)
  | rpcDetail (signature : String)
  | wsOpen
  | wsSend (mentions : List String) (commitment : String)
  | emit (e : Event)
  | save (key : String) (ps : PState)
  | setProbeTimer (delayMs : Nat)
  | terminate
deriving DecidableEq, Repr

/-- JavaScript truthiness of an optional string field: `null`/`undefined`
(`none`) and the empty string are falsy. -/
def falsy : Option String → Bool
  | none => true
  | some s => s = ""

/-- ASCII lowercasing of one character (for the case-insensitive keyword
regex `/(Swap|Transfer|Initialize|Deposit|Withdraw)/i`). -/
def lowerChar (c : Char) : Char :=
  if 'A' ≤ c ∧ c ≤ 'Z' then Char.ofNat (c.toNat + 32) else c

/-- `needle` occurs as a contiguous subsequence of the character list. -/
def containsSeq (needle : List Char) : List Char → Bool
  | [] => needle.isEmpty
  | c :: rest => needle.isPrefixOf (c :: rest) || containsSeq needle rest

/-- The default `keywordRegex` test: one of the five keywords occurs in
the log line, case-insensitively. -/
def defaultKeywordTest (l : String) : Bool :=
  ["swap", "transfer", "initialize", "deposit", "withdraw"].any
    (fun k => containsSeq k.data (l.data.map lowerChar))

/-- The configuration record `cfg` (defaults from the `Object.assign` at
the top of `createWalletMintStream`; the regex becomes an abstract
`String → Bool` test defaulting to the embedded default regex). -/
structure Config where
  commitment : String := "finalized"
  persist : Bool := true
  persistDir : String := ".helius_state"
  backfillLimit : Nat := 15
  maxDetailConcurrency : Int := 2
  filterMode : String := "keywords"
  keywordTest : String → Bool := defaultKeywordTest
  logPredicate : Option (String → Bool) := none
  rpcTimeoutMs : Nat := 7000
  handshakeTimeoutMs : Nat := 8000
  pingIntervalMs : Nat := 12000
  pongTimeoutMs : Nat := 8000
  maxBackoffMs : Nat := 5000
  probeIntervalMs : Nat := 2000
  noMsgTimeoutMs : Nat := 60000

/-- `w || "none"` as used by `stateKey`. -/
def orNone (o : Option String) : String :=
  match o with
  | none => "none"
  | some s => if s = "" then "none" else s

/-- `stateKey(w, m)`: the first six characters of each identifier joined
by an underscore (`(w || "none").slice(0, 6)` etc.). -/
def stateKey (w m : Option String) : String :=
  (orNone w).take 6 ++ "_" ++ (orNone m).take 6

/-- `stateFile(w, m)`: the JSON file path inside the persist
directory. -/
def stateFile (cfg : Config) (w m : Option String) : String :=
  cfg.persistDir ++ "/state_" ++ stateKey w m ++ ".json"

/-- Association-list lookup over the modelled state directory. -/
def lookupStore : List (String × PState) → String → Option PState
  | [], _ => none
  | (k, v) :: rest, key => if k = key then some v else lookupStore rest key

/-- Association-list update (write the state file for `key`). -/
def setStore : List (String × PState) → String → PState → List (String × PState)
  | [], key, v => [(key, v)]
  | (k, v0) :: rest, key, v =>
      if k = key then (key, v) :: rest else (k, v0) :: setStore rest key v

/-- `loadState(w, m)`: read the state file, defaulting to
`{ lastSlot: 0, lastSig: null }` when persistence is off or the file is
missing/unreadable. -/
def loadState (cfg : Config) (store : List (String × PState)) (w m : Option String) : PState :=
  if cfg.persist = false then ⟨0, none⟩
  else
    match lookupStore store (stateKey w m) with
    | some ps => ps
    | none => ⟨0, none⟩

/-- `saveState(w, m, st)`: write the state file (no-op when persistence
is off). -/
def saveState (cfg : Config) (store : List (String × PState)) (w m : Option String)
    (ps : PState) : List (String × PState) :=
  if cfg.persist = false then store else setStore store (stateKey w m) ps

/-- `remember(sig)`: insert into the `seen` set (JavaScript `Set` keeps
insertion order and ignores re-insertion), then FIFO-evict the oldest
entry once the size exceeds 5000. -/
def remember (seen : List String) (sig : String) : List String :=
  let s := if seen.contains sig then seen else seen ++ [sig]
  if 5000 < s.length then s.tail else s

/-- The backoff update on line 95:
`backoffMs = Math.min(cfg.maxBackoffMs, Math.round(backoffMs * 1.5))`.
For a natural `b`, `Math.round(b * 1.5) = (3 * b + 1) / 2` in integer
division, since JavaScript rounds halves up. -/
def nextBackoffMs (cfg : Config) (b : Nat) : Nat :=
  min cfg.maxBackoffMs ((3 * b + 1) / 2)

/-- `scheduleReconnect(tag)`: no-op unless `shouldRun`; otherwise bump
the backoff first and arm the probe timer with the *new* backoff as its
delay. -/
def scheduleReconnect (cfg : Config) (st : SState) : SState × List Action :=
  if st.shouldRun = false then (st, [])
  else
    let b := nextBackoffMs cfg st.backoffMs
    ({ st with backoffMs := b, timers := { st.timers with probe := true } },
     [.logMsg "warn" "Reconnect scheduled", .setProbeTimer b])

/-- The delays of `n` consecutive failed reconnect attempts starting
from backoff value `b`: each attempt waits `nextBackoffMs` of the
previous value (the value is updated before the wait). -/
def reconnectDelays (cfg : Config) (b : Nat) : Nat → List Nat
  | 0 => []
  | n + 1 =>
    let d := nextBackoffMs cfg b
    d :: reconnectDelays cfg d n

/-- `armIdleRecycle()`: (re)arm the idle timer. -/
def armIdleRecycle (st : SState) : SState :=
  { st with timers := { st.timers with idle := true } }

/-- `isImportantLog(logs)`. -/
def isImportantLog (cfg : Config) (logs : List String) : Bool :=
  if logs.isEmpty then false
  else if cfg.filterMode = "keywords" then logs.any cfg.keywordTest
  else
    match cfg.logPredicate with
    | some p => logs.any p
    | none => true

/-- `buildSub()`: the mentions list (wallet, then mint when present and
distinct from the wallet) and the commitment of the `logsSubscribe`
request. -/
def buildSub (cfg : Config) (st : SState) : List String × String :=
  let m1 := match st.pairWallet with
    | some w => if w = "" then [] else [w]
    | none => []
  let m2 := match st.pairMint with
    | some m => if m = "" then [] else if st.pairWallet = some m then [] else [m]
    | none => []
  (m1 ++ m2, cfg.commitment)

/-- `connect()`: guarded by `shouldRun` and a non-falsy pair; clears all
timers and opens a fresh websocket.  The attached handlers are the
separate step functions below. -/
def connect (cfg : Config) (st : SState) : SState × List Action :=
  if st.shouldRun = false then (st, [])
  else if falsy st.pairWallet || falsy st.pairMint then (st, [])
  else ({ st with timers := clearedTimers, ws := true }, [.wsOpen])

/-- The `open` handler: log, reset `backoffMs` to 1000, start the
heartbeat (`ping` interval armed, `liveness` cleared), send the
subscription, arm the idle-recycle timer. -/
def onOpen (cfg : Config) (st : SState) : SState × List Action :=
  let sub := buildSub cfg st
  ({ st with
      backoffMs := 1000,
      timers := { st.timers with ping := true, liveness := false, idle := true } },
   [.logMsg "info" "Connected to Helius WS",
    .wsSend sub.1 sub.2,
    .logMsg "info" "Sent subscription (mentions wallet+mint)"])

/-- An inbound websocket message after `JSON.parse`: a JSON-RPC response
(the subscription acknowledgment when `id = 1` and `result` is truthy),
a `logsNotification`, any other well-formed message, or one that fails
to parse. -/
inductive LiveMsg where
  | response (id : Nat) (result : Option Nat)
  | notification (signature : String) (logs : List String) (err : Option String) (slot : Nat)
  | other
  | malformed
deriving DecidableEq, Repr

/-- The synchronous part of the `message` handler.  For a notification
it rearms the idle timer, then drops the message if the signature was
seen, unimportant, or the in-flight counter is saturated; otherwise it
increments the counter and starts the asynchronous detail fetch. -/
def handleMessage (cfg : Config) (st : SState) (msg : LiveMsg) : SState × List Action :=
  match msg with
  | .malformed => (st, [.logMsg "error" "message parse failed"])
  | .other => (st, [])
  | .response i result =>
      match result with
      | some r =>
          if i = 1 ∧ r ≠ 0 then (armIdleRecycle st, [.logMsg "info" "Subscribed"])
          else (st, [])
      | none => (st, [])
  | .notification sig logs _err _slot =>
      let st1 := armIdleRecycle st
      if st1.seen.contains sig then (st1, [])
      else if isImportantLog cfg logs = false then (st1, [])
      else if cfg.maxDetailConcurrency ≤ st1.inflightDetails then (st1, [])
      else ({ st1 with inflightDetails := st1.inflightDetails + 1 }, [.rpcDetail sig])

/-- The cursor update of the backfill loop:
`st.lastSlot = Math.max(st.lastSlot || 0, slot); st.lastSig = signature`. -/
def advanceCursorBackfill (ps : PState) (slot : Nat) (sig : String) : PState :=
  { lastSlot := max ps.lastSlot slot, lastSig := some sig }

/-- The cursor update of the live path:
`st.lastSlot = slot; st.lastSig = signature` (no `max`). -/
def overwriteCursorLive (ps : PState) (slot : Nat) (sig : String) : PState :=
  { lastSlot := slot, lastSig := some sig }

/-- The continuation after `await txHasWalletMintPair(signature)` inside
the live notification handler: decrement the in-flight counter; when the
pair check succeeded, emit the event, remember the signature, and
overwrite the persisted cursor with this notification's slot. -/
def completeDetail (cfg : Config) (st : SState) (sig : String) (slot : Nat)
    (err : Option String) (log0 : String) (ok : Bool) : SState × List Action :=
  let st1 := { st with inflightDetails := st.inflightDetails - 1 }
  if ok = false then (st1, [])
  else
    let ev : Event :=
      { source := "stream", wallet := st1.pairWallet, mint := st1.pairMint,
        slot := slot, signature := sig, err := err, logLine := log0 }
    let st2 := { st1 with seen := remember st1.seen sig }
    let ps := loadState cfg st2.store st2.pairWallet st2.pairMint
    let ps2 := overwriteCursorLive ps slot sig
    ({ st2 with store := saveState cfg st2.store st2.pairWallet st2.pairMint ps2 },
     [.emit ev, .save (stateKey st2.pairWallet st2.pairMint) ps2])

/-- One historical item returned by `getSignaturesForAddress`. -/
structure SigInfo where
  signature : String
  slot : Nat
deriving DecidableEq, Repr

/-- The external calls a backfill pass makes: the single signature-page
request (which may fail), and the per-signature result of
`txHasWalletMintPair` (`false` both on a non-matching transaction and on
a detail-fetch error, which that function catches internally). -/
structure BackfillOracle where
  sigs : Except String (List SigInfo)
  txOk : String → Bool

/-- The `for (const { signature, slot } of sigs)` loop of
`backfillOnce`: skip seen signatures, fetch detail, and for each item
passing the pair check emit it, remember it, and advance the persisted
cursor with `max`. -/
def backfillItems (cfg : Config) (wallet mint : Option String) (txOk : String → Bool) :
    List SigInfo → SState → SState × List Action
  | [], st => (st, [])
  | it :: rest, st =>
    if st.seen.contains it.signature then
      backfillItems cfg wallet mint txOk rest st
    else if txOk it.signature = false then
      let p := backfillItems cfg wallet mint txOk rest st
      (p.1, .rpcDetail it.signature :: p.2)
    else
      let ev : Event :=
        { source := "backfill", wallet := wallet, mint := mint,
          slot := it.slot, signature := it.signature, err := none,
          logLine := "backfill-scan" }
      let st1 := { st with seen := remember st.seen it.signature }
      let ps := loadState cfg st1.store wallet mint
      let ps2 := advanceCursorBackfill ps it.slot it.signature
      let st2 := { st1 with store := saveState cfg st1.store wallet mint ps2 }
      let p := backfillItems cfg wallet mint txOk rest st2
      (p.1, .rpcDetail it.signature :: .emit ev :: .save (stateKey wallet mint) ps2 :: p.2)

/-- `backfillOnce(wallet, mint, lastKnownSlot)`: log, require a wallet,
issue one `getSignaturesForAddress` request with `limit =
cfg.backfillLimit` and `minContextSlot = Math.max(0, lastKnownSlot - 1)`
(natural subtraction), then run the item loop.  The surrounding
`try/catch` turns a page-request failure into an error log — the
function itself never raises. -/
def backfillOnce (cfg : Config) (st : SState) (wallet mint : Option String)
    (lastKnownSlot : Nat) (ora : BackfillOracle) : SState × List Action :=
  let startLog := Action.logMsg "info" "Backfill start"
  if falsy wallet then (st, [startLog])
  else
    let req := Action.rpcSignatures (wallet.getD "") cfg.backfillLimit (lastKnownSlot - 1)
    match ora.sigs with
    | .error _ => (st, [startLog, req, .logMsg "error" "Backfill error"])
    | .ok sigs =>
        let p := backfillItems cfg wallet mint ora.txOk sigs st
        (p.1, startLog :: req :: p.2)

/-- One character of the base58 alphabet `[1-9A-HJ-NP-Za-km-z]`. -/
def isBase58Char (c : Char) : Bool :=
  (decide ('1' ≤ c) && decide (c ≤ '9'))
  || (decide ('A' ≤ c) && decide (c ≤ 'H'))
  || (decide ('J' ≤ c) && decide (c ≤ 'N'))
  || (decide ('P' ≤ c) && decide (c ≤ 'Z'))
  || (decide ('a' ≤ c) && decide (c ≤ 'k'))
  || (decide ('m' ≤ c) && decide (c ≤ 'z'))

/-- The validation regex `^[1-9A-HJ-NP-Za-km-z]{32,44}$`. -/
def isBase58Id (s : String) : Bool :=
  decide (32 ≤ s.length) && decide (s.length ≤ 44) && s.data.all isBase58Char

/-- The distinct failure modes of `start` (`throw` sites, in program
order). -/
inductive StartErr where
  | missingField
  | invalidWallet
  | invalidMint
  | probeFailed (err : String)
deriving DecidableEq, Repr

/-- The outcome of `start`/`setPair`: the promise result, the module
state afterwards, and the external actions performed. -/
structure StartResult where
  result : Except StartErr Unit
  state : SState
  actions : List Action

/-- `start({ wallet, mint })`: field and base58 validation, then the
HTTP probe, and only then assign the pair, set `shouldRun`, load the
persisted cursor, run one backfill pass, and call `connect()`.  `probe`
is the outcome of the preflight `getLatestBlockhash` call. -/
def start (cfg : Config) (st : SState) (wallet mint : Option String)
    (probe : Except String Unit) (ora : BackfillOracle) : StartResult :=
  if falsy wallet || falsy mint then ⟨.error .missingField, st, []⟩
  else if isBase58Id (wallet.getD "") = false then ⟨.error .invalidWallet, st, []⟩
  else if isBase58Id (mint.getD "") = false then ⟨.error .invalidMint, st, []⟩
  else
    match probe with
    | .error e =>
        ⟨.error (.probeFailed e), st,
         [.rpcProbe, .logMsg "error" "Helius HTTP probe failed"]⟩
    | .ok _ =>
        let acts1 := [Action.rpcProbe, Action.logMsg "info" "Helius HTTP probe OK"]
        let st1 := { st with pairWallet := wallet, pairMint := mint, shouldRun := true }
        let ps := loadState cfg st1.store wallet mint
        let p := backfillOnce cfg st1 wallet mint ps.lastSlot ora
        let q := connect cfg p.1
        ⟨.ok (), q.1, acts1 ++ p.2 ++ q.2⟩

/-- `stop()`: clear `shouldRun`, clear all timers, terminate and drop
the socket. -/
def stop (st : SState) : SState × List Action :=
  ({ st with shouldRun := false, timers := clearedTimers, ws := false },
   if st.ws then [.terminate] else [])

/-- `setPair({ wallet, mint })`: `stop()` followed by `start(...)`. -/
def setPair (cfg : Config) (st : SState) (wallet mint : Option String)
    (probe : Except String Unit) (ora : BackfillOracle) : StartResult :=
  let s := stop st
  let r := start cfg s.1 wallet mint probe ora
  ⟨r.result, r.state, s.2 ++ r.actions⟩

/-- The probe timer firing (the `setTimeout` body in
`scheduleReconnect`): one `getLatestBlockhash` RPC, then `connect()` on
success or another `scheduleReconnect` on failure. -/
def probeFired (cfg : Config) (st : SState) (probeOk : Bool) : SState × List Action :=
  let st0 := { st with timers := { st.timers with probe := false } }
  if probeOk then
    let p := connect cfg st0
    (p.1, Action.rpcProbe :: p.2)
  else
    let p := scheduleReconnect cfg st0
    (p.1, Action.rpcProbe :: Action.logMsg "warn" "Probe failed; will retry" :: p.2)

/-- The interleaving steps of the live phase: a message-handler run, a
detail-fetch completion (normal path or the `.catch` path, which only
decrements the counter and logs), the `open` handler, the reconnect
scheduling run from the `close`/`error` handlers, the probe timer
firing, and `stop()`. -/
inductive LiveStep (cfg : Config) : SState → SState → Prop where
  | message (st : SState) (m : LiveMsg) :
      LiveStep cfg st (handleMessage cfg st m).1
  | complete (st : SState) (sig : String) (slot : Nat) (err : Option String)
      (log0 : String) (ok : Bool) :
      LiveStep cfg st (completeDetail cfg st sig slot err log0 ok).1
  | completeFailed (st : SState) :
      LiveStep cfg st { st with inflightDetails := st.inflightDetails - 1 }
  | opened (st : SState) : LiveStep cfg st (onOpen cfg st).1
  | closedOrErr (st : SState) : LiveStep cfg st (scheduleReconnect cfg st).1
  | probeTimer (st : SState) (ok : Bool) : LiveStep cfg st (probeFired cfg st ok).1
  | stopCalled (st : SState) : LiveStep cfg st (stop st).1

/-- A concrete schedule of live-phase operations, for executable
scenarios. -/
inductive Op where
  | msg (m : LiveMsg)
  | complete (sig : String) (slot : Nat) (err : Option String) (log0 : String) (ok : Bool)
deriving DecidableEq, Repr

/-- Run a schedule of live-phase operations, accumulating actions. -/
def runOps (cfg : Config) : List Op → SState → SState × List Action
  | [], st => (st, [])
  | op :: rest, st =>
    let p := match op with
      | .msg m => handleMessage cfg st m
      | .complete sig slot err log0 ok => completeDetail cfg st sig slot err log0 ok
    let q := runOps cfg rest p.1
    (q.1, p.2 ++ q.2)

/-- Does this action emit an event carrying the given signature? -/
def isEmitOf (sig : String) (a : Action) : Bool :=
  match a with
  | .emit e => e.signature == sig
  | _ => false

/-- Number of `onEvent` emissions for a given signature in an action
list. -/
def emitCount (acts : List Action) (sig : String) : Nat :=
  acts.countP (isEmitOf sig)

/-- Is this action a `getSignaturesForAddress` request? -/
def isSigReq (a : Action) : Bool :=
  match a with
  | .rpcSignatures _ _ _ => true
  | _ => false

/-- Number of `getSignaturesForAddress` requests in an action list. -/
def countSigReqs (acts : List Action) : Nat :=
  acts.countP isSigReq

/-- A configuration with every option left at its default. -/
def cfgEx : Config := {}

/-- A valid 32-character base58 wallet identifier used in scenarios. -/
def wEx : String := "Wa11etWa11etWa11etWa11etWa11etWa"

/-- A valid 32-character base58 mint identifier used in scenarios. -/
def mEx : String := "M1ntM1ntM1ntM1ntM1ntM1ntM1ntM1nt"

/-- A running, subscribed state for the example pair with nothing seen
and no fetch in flight. -/
def stLive : SState :=
  { ws := true,
    timers := { ping := true, liveness := false, idle := true, probe := false },
    backoffMs := 1000,
    pairWallet := some wEx,
    pairMint := some mEx,
    inflightDetails := 0,
    seen := [],
    shouldRun := true,
    store := [] }

/-- Two live notifications for the same signature followed by their two
detail-fetch completions — the second notification arrives while the
first fetch is still in flight, so the `seen` check passes for both. -/
def c1Ops : List Op :=
  [ .msg (.notification "sigDup" ["Swap detected"] none 5),
    .msg (.notification "sigDup" ["Swap detected"] none 5),
    .complete "sigDup" 5 none "Swap detected" true,
    .complete "sigDup" 5 none "Swap detected" true ]

/-- A backfill page holding one matching item. -/
def oraC1 : BackfillOracle := ⟨.ok [⟨"sigDup", 5⟩], fun _ => true⟩

/-- The claim's own scenario: a backfill pass that emits `sigDup`,
followed by a live notification re-observing the same signature. -/
def c1Scenario : SState × List Action :=
  let p := backfillOnce cfgEx stLive (some wEx) (some mEx) 0 oraC1
  let q := handleMessage cfgEx p.1 (.notification "sigDup" ["Swap detected"] none 5)
  (q.1, p.2 ++ q.2)

/-- A state whose dedup cache already holds `sigDup`. -/
def stSeen : SState := { stLive with seen := ["sigDup"] }

/-- A state that has gone through several failed reconnects
(`backoffMs` at its cap) and whose socket has just been re-created. -/
def stC3 : SState := { stLive with backoffMs := 5000 }

/-- A state whose persisted cursor for the example pair is at slot 10,
with one detail fetch in flight. -/
def stC4 : SState :=
  { stLive with
      store := [(stateKey (some wEx) (some mEx), ⟨10, some "sigOld"⟩)],
      inflightDetails := 1 }

/-- A state whose persisted cursor for the example pair is at slot 100
(as after a restart: the dedup cache is empty). -/
def stC5 : SState :=
  { stLive with store := [(stateKey (some wEx) (some mEx), ⟨100, some "sigOlder"⟩)] }

/-- A backfill page (newest first) whose second item is at a slot older
than the stored cursor position 100. -/
def oraC5 : BackfillOracle := ⟨.ok [⟨"sigNewer", 200⟩, ⟨"sigOlder", 50⟩], fun _ => true⟩

/-- An oracle for runs whose backfill page is empty. -/
def oraEx : BackfillOracle := ⟨.ok [], fun _ => true⟩

/-- A state with both allowed detail fetches in flight. -/
def stInflight2 : SState := { stLive with inflightDetails := 2 }

/-- A valid base58 wallet sharing its first six characters with
`walletB` but differing afterwards. -/
def walletA : String := "ABCDEFxxxxxxxxxxxxxxxxxxxxxxxxxx"

/-- A valid base58 wallet sharing its first six characters with
`walletA` but differing afterwards. -/
def walletB : String := "ABCDEFyyyyyyyyyyyyyyyyyyyyyyyyyy"

/-- A valid base58 mint identifier. -/
def mintC : String := "MintCCCCCCCCCCCCCCCCCCCCCCCCCCCC"

/-! ### Helper lemmas -/

theorem lookupStore_setStore_self (s : List (String × PState)) (k : String) (v : PState) :
    lookupStore (setStore s k v) k = some v := by
  induction s with
  | nil => simp [setStore, lookupStore]
  | cons kv rest ih =>
    obtain ⟨k0, v0⟩ := kv
    by_cases h : k0 = k
    · simp [setStore, lookupStore, h]
    · simp [setStore, lookupStore, h, ih]

theorem mem_remember_self (seen : List String) (sig : String) (h : seen.length ≤ 5000) :
    sig ∈ remember seen sig := by
  rw [remember]
  by_cases hc : seen.contains sig = true
  · have hm : sig ∈ seen := by simpa using hc
    have hlen : ¬ (5000 < seen.length) := by omega
    simp [hc, hlen, hm]
  · cases seen with
    | nil => simp [hc]
    | cons a t =>
      have hm : ¬ (sig = a ∨ sig ∈ t) := by simpa using hc
      by_cases hbig : 5000 < t.length + 1 + 1
      · simp [hm, hbig]
      · simp [hm, hbig]

theorem loadState_save_advance (cfg : Config) (store : List (String × PState))
    (w m : Option String) (slot : Nat) (sig : String) :
    (loadState cfg store w m).lastSlot ≤
    (loadState cfg
      (saveState cfg store w m (advanceCursorBackfill (loadState cfg store w m) slot sig))
      w m).lastSlot := by
  by_cases hp : cfg.persist = false
  · simp [loadState, saveState, hp]
  · simp [loadState, saveState, hp]
    rw [lookupStore_setStore_self]
    simp only [advanceCursorBackfill]
    exact le_max_left _ _

theorem storedSlot_backfillItems_mono (cfg : Config) (w m : Option String)
    (txOk : String → Bool) :
    ∀ (items : List SigInfo) (st : SState),
    (loadState cfg st.store w m).lastSlot ≤
    (loadState cfg (backfillItems cfg w m txOk items st).1.store w m).lastSlot := by
  intro items
  induction items with
  | nil => intro st; exact le_refl _
  | cons it rest ih =>
    intro st
    simp only [backfillItems]
    split_ifs with h1 h2
    · exact ih st
    · exact ih st
    · exact le_trans (loadState_save_advance cfg st.store w m it.slot it.signature)
        (ih { st with
                seen := remember st.seen it.signature,
                store := saveState cfg st.store w m
                  (advanceCursorBackfill (loadState cfg st.store w m) it.slot it.signature) })

theorem countSigReqs_backfillItems (cfg : Config) (w m : Option String)
    (txOk : String → Bool) :
    ∀ (items : List SigInfo) (st : SState),
    countSigReqs (backfillItems cfg w m txOk items st).2 = 0 := by
  intro items
  induction items with
  | nil => intro st; rfl
  | cons it rest ih =>
    intro st
    simp only [backfillItems]
    split_ifs with h1 h2
    · exact ih st
    · simp only [countSigReqs, List.countP_cons, isSigReq]
      simpa [countSigReqs] using ih st
    · simp only [countSigReqs, List.countP_cons, isSigReq]
      simpa [countSigReqs] using ih _

theorem inflight_armIdleRecycle (st : SState) :
    (armIdleRecycle st).inflightDetails = st.inflightDetails := rfl

theorem inflight_handleMessage (cfg : Config) (st : SState) (m : LiveMsg)
    (h : st.inflightDetails ≤ cfg.maxDetailConcurrency) :
    (handleMessage cfg st m).1.inflightDetails ≤ cfg.maxDetailConcurrency := by
  cases m with
  | malformed => exact h
  | other => exact h
  | response i r =>
    cases r with
    | none => exact h
    | some v =>
      by_cases h1 : i = 1 ∧ v ≠ 0 <;> simp [handleMessage, h1, armIdleRecycle] <;> exact h
  | notification sig logs err slot =>
    simp only [handleMessage]
    split_ifs with h1 h2 h3
    · exact h
    · exact h
    · exact h
    · have h3' : st.inflightDetails < cfg.maxDetailConcurrency := by
        simpa [armIdleRecycle] using not_le.mp h3
      show st.inflightDetails + 1 ≤ cfg.maxDetailConcurrency
      omega

theorem inflight_completeDetail (cfg : Config) (st : SState) (sig : String) (slot : Nat)
    (err : Option String) (log0 : String) (ok : Bool) :
    (completeDetail cfg st sig slot err log0 ok).1.inflightDetails =
      st.inflightDetails - 1 := by
  rw [completeDetail]
  by_cases hok : ok = false <;> simp [hok]

theorem inflight_onOpen (cfg : Config) (st : SState) :
    (onOpen cfg st).1.inflightDetails = st.inflightDetails := rfl

theorem inflight_stop (st : SState) :
    (stop st).1.inflightDetails = st.inflightDetails := rfl

theorem inflight_connect (cfg : Config) (st : SState) :
    (connect cfg st).1.inflightDetails = st.inflightDetails := by
  rw [connect]; split_ifs <;> rfl

theorem inflight_scheduleReconnect (cfg : Config) (st : SState) :
    (scheduleReconnect cfg st).1.inflightDetails = st.inflightDetails := by
  rw [scheduleReconnect]; split_ifs <;> rfl

theorem inflight_probeFired (cfg : Config) (st : SState) (ok : Bool) :
    (probeFired cfg st ok).1.inflightDetails = st.inflightDetails := by
  rw [probeFired]
  by_cases h : ok = true <;>
    simp [h, inflight_connect, inflight_scheduleReconnect]

theorem inflight_liveStep (cfg : Config) {a b : SState} (h : LiveStep cfg a b)
    (ha : a.inflightDetails ≤ cfg.maxDetailConcurrency) :
    b.inflightDetails ≤ cfg.maxDetailConcurrency := by
  cases h with
  | message m => exact inflight_handleMessage cfg a m ha
  | complete sig slot err log0 ok =>
    rw [inflight_completeDetail]
    omega
  | completeFailed =>
    show a.inflightDetails - 1 ≤ cfg.maxDetailConcurrency
    omega
  | opened =>
    rw [inflight_onOpen]
    exact ha
  | closedOrErr =>
    rw [inflight_scheduleReconnect]
    exact ha
  | probeTimer ok =>
    rw [inflight_probeFired]
    exact ha
  | stopCalled =>
    rw [inflight_stop]
    exact ha

theorem falsy_of_base58 (s : String) (h : isBase58Id s = true) :
    falsy (some s) = false := by
  simp only [falsy]
  by_cases hs : s = ""
  · subst hs
    exact absurd h (by decide)
  · simp [hs]

theorem backfillOnce_error (cfg : Config) (st : SState) (w m : Option String)
    (lks : Nat) (e : String) (txOk : String → Bool) (hw : falsy w = false) :
    backfillOnce cfg st w m lks ⟨.error e, txOk⟩ =
      (st, [.logMsg "info" "Backfill start",
            .rpcSignatures (w.getD "") cfg.backfillLimit (lks - 1),
            .logMsg "error" "Backfill error"]) := by
  simp only [backfillOnce]
  rw [if_neg (by simp [hw])]

theorem start_state_of_error (cfg : Config) (st : SState) (wallet mint : Option String)
    (probe : Except String Unit) (ora : BackfillOracle) (e : StartErr)
    (h : (start cfg st wallet mint probe ora).result = Except.error e) :
    (start cfg st wallet mint probe ora).state = st := by
  simp only [start] at h ⊢
  split_ifs at h ⊢
  · rfl
  · rfl
  · rfl
  · cases probe with
    | error e2 => rfl
    | ok u => simp at h

/-! ### Claim theorems -/

/-- C2 (counterexample): the claim states the first reconnect delay after a
failure is the base 1000ms (sequence 1000, 1500, 2250, 3375, 5000, …).  In
the code `scheduleReconnect` multiplies the backoff *before* arming the
timer, so starting from backoff 1000 the very first scheduled delay is
already 1500ms, and the actual sequence is 1500, 2250, 3375, 5000, 5000, …
— never 1000. -/
theorem c2_counterexample :
    reconnectDelays cfgEx 1000 6 = [1500, 2250, 3375, 5000, 5000, 5000] ∧
    (scheduleReconnect cfgEx stLive).2 =
      [.logMsg "warn" "Reconnect scheduled", .setProbeTimer 1500] ∧
    (1500 : Nat) ≠ 1000 := by decide

/-- C2 (amended): each consecutive failure first updates the backoff to
`min(maxBackoffMs, round(backoff * 1.5))` and then waits the *new* value,
so from base 1000ms with multiplier 1.5 and cap 5000ms the delays are
1500, 2250, 3375, 5000, 5000, …; the cap is reached from any backoff of at
least 3333ms and stays there. -/
theorem c2_backoff_amended :
    (∀ (cfg : Config) (st : SState), st.shouldRun = true →
       (scheduleReconnect cfg st).1.backoffMs = nextBackoffMs cfg st.backoffMs ∧
       (scheduleReconnect cfg st).2 =
         [.logMsg "warn" "Reconnect scheduled",
          .setProbeTimer (nextBackoffMs cfg st.backoffMs)]) ∧
    reconnectDelays cfgEx 1000 6 = [1500, 2250, 3375, 5000, 5000, 5000] ∧
    (∀ b : Nat, 3333 ≤ b → nextBackoffMs cfgEx b = 5000) := by
  refine ⟨?_, by decide, ?_⟩
  · intro cfg st hrun
    have hns : ¬ (st.shouldRun = false) := by simp [hrun]
    rw [scheduleReconnect, if_neg hns]
    exact ⟨rfl, rfl⟩
  · intro b hb
    show min 5000 ((3 * b + 1) / 2) = 5000
    omega

/-- C2 (witness for the amended theorem): the running example state has
its backoff bumped exactly to `nextBackoffMs`, and a 4000ms backoff is
capped to 5000ms. -/
theorem c2_backoff_amended_witness :
    (scheduleReconnect cfgEx stLive).1.backoffMs = nextBackoffMs cfgEx stLive.backoffMs ∧
    nextBackoffMs cfgEx 4000 = 5000 :=
  ⟨(c2_backoff_amended.1 cfgEx stLive rfl).1, c2_backoff_amended.2.2 4000 (by omega)⟩

/-- C3 (counterexample): the claim states the backoff is reset to base
only on a subscription acknowledgment and never on mere socket open.  In
the code the `open` handler itself executes `backoffMs = 1000` before any
acknowledgment can arrive: from a state with backoff at the 5000ms cap,
running the open handler alone resets it to 1000. -/
theorem c3_counterexample :
    stC3.backoffMs = 5000 ∧
    (onOpen cfgEx stC3).1.backoffMs = 1000 ∧
    (1000 : Nat) ≠ 5000 := by decide

/-- C3 (amended): the backoff is reset to its base 1000ms by the socket
`open` handler (before any acknowledgment), and no inbound message —
including the subscription acknowledgment — changes the backoff at all. -/
theorem c3_backoff_reset_amended :
    (∀ (cfg : Config) (st : SState), (onOpen cfg st).1.backoffMs = 1000) ∧
    (∀ (cfg : Config) (st : SState) (m : LiveMsg),
       (handleMessage cfg st m).1.backoffMs = st.backoffMs) := by
  refine ⟨fun cfg st => rfl, fun cfg st m => ?_⟩
  cases m with
  | malformed => rfl
  | other => rfl
  | response i r =>
    cases r with
    | none => rfl
    | some v =>
      simp only [handleMessage]
      split_ifs <;> rfl
  | notification sig logs err slot =>
    simp only [handleMessage]
    split_ifs <;> rfl

/-- C4 (counterexample): the claim states every post-emission cursor write
stores a `lastPosition` at least the previously stored value.  The live
emission path executes `st.lastSlot = slot` with no `max`: from a persisted
cursor at slot 10, completing a live detail fetch for a notification at
slot 5 stores 5, which is strictly below 10. -/
theorem c4_counterexample :
    (loadState cfgEx stC4.store (some wEx) (some mEx)).lastSlot = 10 ∧
    (loadState cfgEx
        (completeDetail cfgEx stC4 "sigNew" 5 none "Swap detected" true).1.store
        (some wEx) (some mEx)).lastSlot = 5 ∧
    (5 : Nat) < 10 := by decide

/-- C4 (amended): only the backfill engine advances the cursor with
`lastSlot = max(lastSlot, slot)` — across a whole backfill pass the stored
`lastSlot` for the pair is non-decreasing — while the live subscriber
overwrites `lastSlot` with the notification's slot, which may decrease
it. -/
theorem c4_cursor_amended :
    (∀ (ps : PState) (slot : Nat) (sig : String),
       ps.lastSlot ≤ (advanceCursorBackfill ps slot sig).lastSlot) ∧
    (∀ (cfg : Config) (st : SState) (w m : Option String) (lks : Nat)
       (ora : BackfillOracle),
       (loadState cfg st.store w m).lastSlot ≤
       (loadState cfg (backfillOnce cfg st w m lks ora).1.store w m).lastSlot) ∧
    (∀ (ps : PState) (slot : Nat) (sig : String),
       (overwriteCursorLive ps slot sig).lastSlot = slot) := by
  refine ⟨fun ps slot sig => le_max_left _ _, ?_, fun ps slot sig => rfl⟩
  intro cfg st w m lks ora
  simp only [backfillOnce]
  split_ifs with hw
  · exact le_refl _
  · cases hsig : ora.sigs with
    | error e => exact le_refl _
    | ok sigs => exact storedSlot_backfillItems_mono cfg w m ora.txOk sigs st

/-- C5 (counterexample): the claim states backfill stops as soon as it
encounters an item at or older than the stored cursor position.  With the
cursor at slot 100 and a (newest-first) page containing an item at slot
200 followed by one at slot 50, the code emits the slot-50 item as well:
it applies no client-side cursor stop. -/
theorem c5_counterexample :
    emitCount (backfillOnce cfgEx stC5 (some wEx) (some mEx) 100 oraC5).2 "sigOlder" = 1 ∧
    (1 : Nat) ≠ 0 := by decide

/-- C5 (amended): `backfillOnce` issues exactly one
`getSignaturesForAddress` request (none when the wallet is missing) with
`limit = backfillLimit` and `minContextSlot = lastKnownSlot - 1`; it never
requests a further page, and it processes every returned item not in the
seen-set that passes the pair check, even items at or older than the
stored cursor position. -/
theorem c5_single_request_amended :
    (∀ (cfg : Config) (st : SState) (w m : Option String) (lks : Nat)
       (ora : BackfillOracle),
       countSigReqs (backfillOnce cfg st w m lks ora).2 = if falsy w then 0 else 1) ∧
    countSigReqs (backfillOnce cfgEx stC5 (some wEx) (some mEx) 100 oraC5).2 = 1 ∧
    Action.rpcSignatures wEx cfgEx.backfillLimit 99 ∈
      (backfillOnce cfgEx stC5 (some wEx) (some mEx) 100 oraC5).2 ∧
    emitCount (backfillOnce cfgEx stC5 (some wEx) (some mEx) 100 oraC5).2 "sigNewer" = 1 := by
  refine ⟨?_, by decide, by decide, by decide⟩
  intro cfg st w m lks ora
  simp only [backfillOnce]
  split_ifs with hw
  · simp [countSigReqs, isSigReq]
  · cases hsig : ora.sigs with
    | error e => simp [countSigReqs, isSigReq, List.countP_cons]
    | ok sigs =>
      have h0 := countSigReqs_backfillItems cfg w m ora.txOk sigs st
      simp only [countSigReqs] at h0 ⊢
      simp [List.countP_cons, h0, isSigReq]

/-- C9: the persisted-cursor key is built from only the first six
characters of each identifier, so the two distinct valid pairs
`(walletA, mintC)` and `(walletB, mintC)` — all identifiers base58 of
length 32 — collide on the same storage key and state file. -/
theorem c9_truncated_key_collision :
    walletA ≠ walletB ∧
    isBase58Id walletA = true ∧ isBase58Id walletB = true ∧ isBase58Id mintC = true ∧
    stateKey (some walletA) (some mintC) = stateKey (some walletB) (some mintC) ∧
    stateFile cfgEx (some walletA) (some mintC) =
      stateFile cfgEx (some walletB) (some mintC) := by decide

/-- C1 (counterexample): the claim states `onEvent` fires exactly once per
(pair, identifier) per process lifetime.  The live path checks the
seen-set synchronously but only adds to it after the asynchronous detail
fetch completes, so a second notification for the same signature arriving
while the first fetch is in flight passes the check too: the schedule
`c1Ops` produces two `onEvent` calls for `sigDup`. -/
theorem c1_counterexample :
    emitCount (runOps cfgEx c1Ops stLive).2 "sigDup" = 2 ∧ (2 : Nat) ≠ 1 := by decide

/-- C1 (amended): deduplication across origins holds whenever the
identifier is present in the seen-set at the time the live notification is
handled: the handler then emits nothing and starts no fetch; emitting adds
the identifier to the (5000-capacity FIFO) seen-set; and in the claim's
own backfill-then-live scenario exactly one `onEvent` call occurs.
Exactly-once is not guaranteed when notifications for one identifier race
within the detail-fetch window (see the counterexample) or after FIFO
eviction. -/
theorem c1_dedup_amended :
    (∀ (cfg : Config) (st : SState) (sig : String) (logs : List String)
       (err : Option String) (slot : Nat),
       st.seen.contains sig = true →
       handleMessage cfg st (.notification sig logs err slot) = (armIdleRecycle st, [])) ∧
    (∀ (seen : List String) (sig : String),
       seen.length ≤ 5000 → sig ∈ remember seen sig) ∧
    emitCount c1Scenario.2 "sigDup" = 1 := by
  refine ⟨?_, mem_remember_self, by decide⟩
  intro cfg st sig logs err slot hc
  have hm : sig ∈ st.seen := by simpa using hc
  simp [handleMessage, armIdleRecycle, hm]

/-- C1 (witness for the amended theorem): with `sigDup` in the seen-set
the live handler drops the notification, and `remember` inserts a fresh
signature into an empty seen-set. -/
theorem c1_dedup_amended_witness :
    handleMessage cfgEx stSeen (.notification "sigDup" ["Swap detected"] none 6) =
      (armIdleRecycle stSeen, []) ∧
    "sigDup" ∈ remember [] "sigDup" :=
  ⟨c1_dedup_amended.1 cfgEx stSeen "sigDup" ["Swap detected"] none 6 (by decide),
   c1_dedup_amended.2.1 [] "sigDup" (by decide)⟩

/-- C6: for a pair with a missing field or an identifier failing base58
validation, `start` rejects with a validation error, performs no external
action whatsoever (no probe, no backfill RPC, no socket open), and leaves
the state — pair, should-run flag, timers, persisted cursors — exactly
unchanged. -/
theorem c6_validation (cfg : Config) (st : SState) (wallet mint : Option String)
    (probe : Except String Unit) (ora : BackfillOracle)
    (h : falsy wallet = true ∨ falsy mint = true ∨
         isBase58Id (wallet.getD "") = false ∨ isBase58Id (mint.getD "") = false) :
    (start cfg st wallet mint probe ora).state = st ∧
    (start cfg st wallet mint probe ora).actions = [] ∧
    ∃ e, (start cfg st wallet mint probe ora).result = Except.error e ∧
      (e = StartErr.missingField ∨ e = StartErr.invalidWallet ∨
       e = StartErr.invalidMint) := by
  by_cases h1 : (falsy wallet || falsy mint) = true
  · simp only [start]
    rw [if_pos h1]
    exact ⟨rfl, rfl, StartErr.missingField, rfl, Or.inl rfl⟩
  · simp only [start]
    rw [if_neg h1]
    by_cases h2 : isBase58Id (wallet.getD "") = false
    · rw [if_pos h2]
      exact ⟨rfl, rfl, StartErr.invalidWallet, rfl, Or.inr (Or.inl rfl)⟩
    · rw [if_neg h2]
      have h3 : isBase58Id (mint.getD "") = false := by
        rcases h with h | h | h | h
        · exact absurd (by simp [h]) h1
        · exact absurd (by simp [h]) h1
        · exact absurd h h2
        · exact h
      rw [if_pos h3]
      exact ⟨rfl, rfl, StartErr.invalidMint, rfl, Or.inr (Or.inr rfl)⟩

/-- C6 (witness): a three-character wallet identifier is rejected with no
action and no state change. -/
theorem c6_validation_witness :
    (start cfgEx stLive (some "zzz") (some mEx) (Except.ok ()) oraEx).state = stLive ∧
    (start cfgEx stLive (some "zzz") (some mEx) (Except.ok ()) oraEx).actions = [] ∧
    ∃ e, (start cfgEx stLive (some "zzz") (some mEx) (Except.ok ()) oraEx).result =
        Except.error e ∧
      (e = StartErr.missingField ∨ e = StartErr.invalidWallet ∨
       e = StartErr.invalidMint) :=
  c6_validation cfgEx stLive (some "zzz") (some mEx) (Except.ok ()) oraEx
    (Or.inr (Or.inr (Or.inl (by decide))))

/-- C7: an important live notification arriving while the in-flight
counter is at or above `maxDetailConcurrency` is dropped — the handler
returns with no fetch started, no emission, no error, only the idle timer
rearmed — and along every interleaving of live-phase steps the in-flight
counter never exceeds `maxDetailConcurrency`. -/
theorem c7_backpressure (cfg : Config) :
    (∀ (st : SState) (sig : String) (logs : List String) (err : Option String)
       (slot : Nat),
       st.seen.contains sig = false →
       isImportantLog cfg logs = true →
       cfg.maxDetailConcurrency ≤ st.inflightDetails →
       handleMessage cfg st (.notification sig logs err slot) = (armIdleRecycle st, [])) ∧
    (∀ (s0 s : SState), s0.inflightDetails ≤ cfg.maxDetailConcurrency →
       Relation.ReflTransGen (LiveStep cfg) s0 s →
       s.inflightDetails ≤ cfg.maxDetailConcurrency) := by
  constructor
  · intro st sig logs err slot hseen himp hsat
    have hm0 : sig ∉ st.seen := by simpa using hseen
    have hseen' : ¬ ((armIdleRecycle st).seen.contains sig = true) := by
      simp [armIdleRecycle, hm0]
    have hni : ¬ (isImportantLog cfg logs = false) := by simp [himp]
    have hs' : cfg.maxDetailConcurrency ≤ (armIdleRecycle st).inflightDetails := hsat
    simp only [handleMessage]
    rw [if_neg hseen', if_neg hni, if_pos hs']
  · intro s0 s h0 htr
    induction htr with
    | refl => exact h0
    | tail hab hstep ih => exact inflight_liveStep cfg hstep ih

/-- C7 (witness): with both allowed fetches in flight, an important
notification is dropped with no actions; and a state within the bound
stays within the bound along the empty step sequence. -/
theorem c7_backpressure_witness :
    handleMessage cfgEx stInflight2 (.notification "sigX" ["Swap detected"] none 9) =
      (armIdleRecycle stInflight2, []) ∧
    stLive.inflightDetails ≤ cfgEx.maxDetailConcurrency :=
  ⟨(c7_backpressure cfgEx).1 stInflight2 "sigX" ["Swap detected"] none 9
      (by decide) (by decide) (by decide),
   (c7_backpressure cfgEx).2 stLive stLive (by decide) Relation.ReflTransGen.refl⟩

/-- C8: a failing signature-page RPC during a backfill pass is logged via
`onLog` and aborts the pass with the state unchanged (the function is
total — nothing propagates to the caller), and `start` with a failing
backfill oracle still resolves successfully, logging the backfill error
and proceeding to open the live streaming socket. -/
theorem c8_backfill_error_contained (cfg : Config) (st : SState) (w m : Option String)
    (lks : Nat) (e : String) (txOk : String → Bool) (hw : falsy w = false) :
    backfillOnce cfg st w m lks ⟨.error e, txOk⟩ =
      (st, [.logMsg "info" "Backfill start",
            .rpcSignatures (w.getD "") cfg.backfillLimit (lks - 1),
            .logMsg "error" "Backfill error"]) ∧
    (∀ (wallet mint : String), isBase58Id wallet = true → isBase58Id mint = true →
      (start cfg st (some wallet) (some mint) (.ok ()) ⟨.error e, txOk⟩).result =
          Except.ok () ∧
      Action.logMsg "error" "Backfill error" ∈
        (start cfg st (some wallet) (some mint) (.ok ()) ⟨.error e, txOk⟩).actions ∧
      Action.wsOpen ∈
        (start cfg st (some wallet) (some mint) (.ok ()) ⟨.error e, txOk⟩).actions) := by
  refine ⟨backfillOnce_error cfg st w m lks e txOk hw, ?_⟩
  intro wallet mint hbw hbm
  have hfw : falsy (some wallet) = false := falsy_of_base58 wallet hbw
  have hfm : falsy (some mint) = false := falsy_of_base58 mint hbm
  simp only [start]
  rw [if_neg (by simp [hfw, hfm])]
  rw [if_neg (by simp [hbw])]
  rw [if_neg (by simp [hbm])]
  rw [backfillOnce_error cfg _ (some wallet) (some mint) _ e txOk hfw]
  simp only [connect]
  rw [if_neg (by simp)]
  rw [if_neg (by simp [hfw, hfm])]
  simp

/-- C8 (witness): at the example pair with a failing page request, the
pass aborts with only the three logged actions, and `start` still opens
the socket. -/
theorem c8_backfill_error_contained_witness :
    backfillOnce cfgEx stLive (some wEx) (some mEx) 0 ⟨.error "boom", fun _ => true⟩ =
      (stLive, [.logMsg "info" "Backfill start",
                .rpcSignatures wEx cfgEx.backfillLimit 0,
                .logMsg "error" "Backfill error"]) ∧
    (start cfgEx stLive (some wEx) (some mEx) (.ok ())
        ⟨.error "boom", fun _ => true⟩).result = Except.ok () ∧
    Action.logMsg "error" "Backfill error" ∈
      (start cfgEx stLive (some wEx) (some mEx) (.ok ())
        ⟨.error "boom", fun _ => true⟩).actions ∧
    Action.wsOpen ∈
      (start cfgEx stLive (some wEx) (some mEx) (.ok ())
        ⟨.error "boom", fun _ => true⟩).actions := by
  have H := c8_backfill_error_contained cfgEx stLive (some wEx) (some mEx) 0 "boom"
    (fun _ => true) (by decide)
  exact ⟨H.1, H.2 wEx mEx (by decide) (by decide)⟩

/-- C10: `setPair` runs `stop()` before the new pair is validated, so
whenever `setPair` rejects — validation failure or probe failure — the
resulting state is fully stopped: the should-run flag is cleared, the
socket is gone, and every timer is cleared; the old pair is no longer
monitored. -/
theorem c10_setPair_rejected_stops (cfg : Config) (st : SState)
    (wallet mint : Option String) (probe : Except String Unit) (ora : BackfillOracle)
    (e : StartErr)
    (h : (setPair cfg st wallet mint probe ora).result = Except.error e) :
    (setPair cfg st wallet mint probe ora).state.shouldRun = false ∧
    (setPair cfg st wallet mint probe ora).state.ws = false ∧
    (setPair cfg st wallet mint probe ora).state.timers = clearedTimers := by
  have hres : (start cfg (stop st).1 wallet mint probe ora).result = Except.error e := h
  have hst : (setPair cfg st wallet mint probe ora).state =
      (start cfg (stop st).1 wallet mint probe ora).state := rfl
  rw [hst, start_state_of_error cfg (stop st).1 wallet mint probe ora e hres]
  exact ⟨rfl, rfl, rfl⟩

/-- C10 (witness): a `setPair` to an invalid wallet from the running
example state leaves the client fully stopped. -/
theorem c10_setPair_rejected_stops_witness :
    (setPair cfgEx stLive (some "zzz") (some mEx) (Except.ok ()) oraEx).state.shouldRun
      = false ∧
    (setPair cfgEx stLive (some "zzz") (some mEx) (Except.ok ()) oraEx).state.ws
      = false ∧
    (setPair cfgEx stLive (some "zzz") (some mEx) (Except.ok ()) oraEx).state.timers
      = clearedTimers :=
  c10_setPair_rejected_stops cfgEx stLive (some "zzz") (some mEx) (Except.ok ()) oraEx
    StartErr.invalidWallet (by rfl)

end HeliusStream
